import Mathlib

/-!
Verification of the Smart-PDF-Splitting repository.

A shallow embedding of `src/pdf_splitter` into Lean 4:

* `tools.py`   — `read_consecutive_pages`, `normalize_date`, `shorten_company`,
  `save_document` and the filename sanitization (`re.sub(r'[\W_]+', '_', ...)`).
* `agent.py`   — the LangGraph controller: `AgentState`, `agent_node`,
  `tool_node`, `should_continue` and the page-walk loop.
* `ollama_agent.py` — `OllamaPDFSplitterAgent.run`: backend retry handling and
  the name-based tool dispatch over the module's global namespace.
* `main.py`    — the `ToolExecutor.invoke` dispatcher.

Python strings are modelled as Lean `String` (operated on through `List Char`
so that every function is structural and kernel-executable); machine integers
are `Nat`/`Int`; the filesystem is an explicit association list from output
paths to written page lists; calls into external collaborators (the Ollama
backend, `json.loads`, tool executions) are modelled as oracle inputs carrying
the collaborator's outcome, with exceptions represented as an error case.
-/

/-! ## Python string primitives (ASCII model) -/

/-- Characters removed by Python `str.strip()`. -/
def pyIsSpace (c : Char) : Bool :=
  c = ' ' || c = '\t' || c = '\n' || c = '\r' || c = '\x0b' || c = '\x0c'

/-- Python `str.strip()` on a character list. -/
def pyStripL (l : List Char) : List Char :=
  ((l.dropWhile pyIsSpace).reverse.dropWhile pyIsSpace).reverse

/-- Python `str.strip()`. -/
def pyStrip (s : String) : String :=
  String.mk (pyStripL s.data)

/-- Python `\w` (ASCII): letters, digits and underscore. -/
def isWordCharPy (c : Char) : Bool :=
  c.isAlphanum || c = '_'

/-- Split on every character satisfying `p`, keeping empty fields (the
shape underlying both Python `str.split(sep)` and, after discarding empty
fields, `re.split` on a character-class run). -/
def splitOnP (p : Char → Bool) : List Char → List (List Char)
  | [] => [[]]
  | c :: rest =>
    if p c then [] :: splitOnP p rest
    else
      match splitOnP p rest with
      | [] => [[c]]
      | h :: t => (c :: h) :: t

/-- Python substring containment `pat in l`. -/
def containsSub (pat : List Char) : List Char → Bool
  | [] => pat.isPrefixOf []
  | c :: rest => pat.isPrefixOf (c :: rest) || containsSub pat rest

/-- Core of `re.sub(r'[\W_]+', '_', s)`: every maximal run of
non-alphanumeric characters becomes a single underscore.  `inRun` records
whether the previous character belonged to such a run. -/
def collapseAux (inRun : Bool) : List Char → List Char
  | [] => []
  | c :: rest =>
    if c.isAlphanum then c :: collapseAux false rest
    else if inRun then collapseAux inRun rest
    else '_' :: collapseAux true rest

/-- Python `re.sub(r'[\W_]+', '_', s)` (tools.py lines 222-223). -/
def pyCollapseNonWord (s : String) : String :=
  String.mk (collapseAux false s.data)

/-- Numeric value of a digit string. -/
def digitsToNat (l : List Char) : Nat :=
  l.foldl (fun a c => 10 * a + (c.toNat - '0'.toNat)) 0

def digitChar (n : Nat) : Char :=
  Char.ofNat ('0'.toNat + n)

/-- Two-digit zero-padded decimal (strftime `%m`, `%d`). -/
def pad2 (n : Nat) : List Char :=
  [digitChar (n / 10 % 10), digitChar (n % 10)]

/-- Four-digit zero-padded decimal (strftime `%Y`). -/
def pad4 (n : Nat) : List Char :=
  [digitChar (n / 1000 % 10), digitChar (n / 100 % 10),
   digitChar (n / 10 % 10), digitChar (n % 10)]

/-! ## tools.py: normalize_date -/

def isLeapYear (y : Nat) : Bool :=
  y % 4 = 0 && (y % 100 ≠ 0 || y % 400 = 0)

def daysInMonth (y m : Nat) : Nat :=
  if m = 2 then (if isLeapYear y then 29 else 28)
  else if m = 4 || m = 6 || m = 9 || m = 11 then 30
  else 31

/-- strptime field `%d` (`hi = 31`) or `%m` (`hi = 12`): one or two digits
whose value lies in `[1, hi]` (CPython compiles these directives to the
regexes `3[01]|[12]\d|0[1-9]|[1-9]` and `1[0-2]|0[1-9]|[1-9]`). -/
def checkDayMonth (hi : Nat) (part : List Char) : Option Nat :=
  if part.all Char.isDigit ∧ 1 ≤ part.length ∧ part.length ≤ 2 then
    let v := digitsToNat part
    if 1 ≤ v ∧ v ≤ hi then some v else none
  else none

/-- strptime field `%Y`: exactly four digits; `datetime` additionally requires
the year to be at least `MINYEAR = 1`. -/
def checkYear (part : List Char) : Option Nat :=
  if part.all Char.isDigit ∧ part.length = 4 then
    let v := digitsToNat part
    if 1 ≤ v then some v else none
  else none

/-- Field order of the six formats tried by `normalize_date`. -/
inductive DateShape where
  | dmy
  | ymd
deriving DecidableEq

/-- `datetime.strptime(s, fmt)` for the day/month/year formats of
`normalize_date`: the whole string must match, and the parsed triple must be
a valid calendar date. -/
def strptimeDate (shape : DateShape) (sep : Char) (s : List Char) :
    Option (Nat × Nat × Nat) :=
  match splitOnP (fun c => c = sep) s with
  | [a, b, c] =>
    let fields := match shape with
      | .dmy => (c, b, a)
      | .ymd => (a, b, c)
    match checkYear fields.1, checkDayMonth 12 fields.2.1,
        checkDayMonth 31 fields.2.2 with
    | some y, some m, some d =>
      if d ≤ daysInMonth y m then some (y, m, d) else none
    | _, _, _ => none
  | _ => none

/-- The format list `["%d.%m.%Y", "%d/%m/%Y", "%Y-%m-%d", "%Y/%m/%d",
"%d-%m-%Y", "%Y.%m.%d"]` tried in order (tools.py line 75). -/
def firstParse (s : List Char) : Option (Nat × Nat × Nat) :=
  (strptimeDate .dmy '.' s).orElse fun _ =>
  (strptimeDate .dmy '/' s).orElse fun _ =>
  (strptimeDate .ymd '-' s).orElse fun _ =>
  (strptimeDate .ymd '/' s).orElse fun _ =>
  (strptimeDate .dmy '-' s).orElse fun _ =>
  strptimeDate .ymd '.' s

/-- tools.py `normalize_date` (lines 71-88).  The `try/except` around each
`strptime` attempt is the `Option` in `strptimeDate`; every branch returns a
string, so the function is total. -/
def normalize_date (d : String) : String :=
  if d = "" then "unknown_date"
  else
    let ds := pyStripL d.data
    match firstParse ds with
    | some (y, m, dd) => String.mk (pad4 y ++ pad2 m ++ pad2 dd)
    | none =>
      let digits := ds.filter Char.isDigit
      if 8 ≤ digits.length then
        if digits.take 2 = ['2', '0'] ∨ digits.take 2 = ['1', '9'] then
          String.mk (digits.take 8)
        else
          let e := digits.take 8
          String.mk (e.drop 4 ++ (e.drop 2).take 2 ++ e.take 2)
      else
        String.mk (ds.filter fun c => c.isDigit || c.isAlpha || c = '_' || c = '-')

/-! ## tools.py: shorten_company -/

/-- Match test for the pattern `\bGmbH\b` at the current scan position,
case-insensitively: `prev` is the character preceding the scan position in
the original string (`none` at the start), used for the left `\b`; the right
`\b` requires a non-word character (or the end) after the `H`. -/
def gmbhHere (prev : Option Char) (c1 c2 c3 c4 : Char) (rest : List Char) :
    Bool :=
  (c1.toLower = 'g' && c2.toLower = 'm' && c3.toLower = 'b' &&
      c4.toLower = 'h')
    && (match prev with
        | none => true
        | some p => !isWordCharPy p)
    && (match rest with
        | [] => true
        | d :: _ => !isWordCharPy d)

/-- Scan of `re.sub(r"\bGmbH\b\.?", "", n, flags=re.IGNORECASE)`: each match
(the optional `\.?` greedily consuming a following period) is removed, and
scanning resumes after it.  The scan consumes at least one character per
step, so `fuel` initialized to the list length makes the recursion
structural (and kernel-executable) without changing the result. -/
def subGmbHAux (fuel : Nat) (prev : Option Char) (l : List Char) : List Char :=
  match fuel, l with
  | 0, l => l
  | _ + 1, [] => []
  | fuel + 1, c1 :: c2 :: c3 :: c4 :: rest =>
    if gmbhHere prev c1 c2 c3 c4 rest then
      match rest with
      | '.' :: rest2 => subGmbHAux fuel (some '.') rest2
      | _ => subGmbHAux fuel (some c4) rest
    else
      c1 :: subGmbHAux fuel (some c1) (c2 :: c3 :: c4 :: rest)
  | fuel + 1, c1 :: rest1 => c1 :: subGmbHAux fuel (some c1) rest1

/-- The full `re.sub(r"\bGmbH\b\.?", "", n, flags=re.IGNORECASE)`. -/
def subGmbH (prev : Option Char) (l : List Char) : List Char :=
  subGmbHAux l.length prev l

/-- Separator class of `re.split(r"[\s,\.-]+", n)` in `shorten_company`. -/
def companySep (c : Char) : Bool :=
  pyIsSpace c || c = ',' || c = '.' || c = '-'

/-- tools.py `shorten_company` (lines 91-110). The alias table is checked in
dict insertion order via case-insensitive substring containment. -/
def shorten_company (name : String) : String :=
  if name = "" then "UnknownCompany"
  else
    let n := pyStripL name.data
    let n := pyStripL (subGmbH none n)
    let lower := n.map Char.toLower
    if containsSub "deutsche bahn".data lower then "DB"
    else if containsSub "deutsche bank".data lower then "DBank"
    else if containsSub "stadtwerke neu isenburg".data lower then "SWNI"
    else
      let parts := (splitOnP companySep n).filter (fun p => ¬p.isEmpty)
      match parts with
      | [p] => String.mk p
      | _ => String.mk ((parts.take 3).map (fun p => (p.headD ' ').toUpper))

/-! ## tools.py: read_consecutive_pages -/

/-- tools.py `read_consecutive_pages` (lines 46-67).  The source PDF is the
list of its pages' extracted texts (the `or ""` fallback is folded into the
model); the page index is an `Int`, as in Python, so that negative indices
take the out-of-bounds branch of the explicit `0 <= index < len` check.  The
function only reads: it is a pure function of the page list. -/
def read_consecutive_pages (pdfPages : List String) (current_page_index : Int) :
    String :=
  if 0 ≤ current_page_index ∧ current_page_index < pdfPages.length then
    let i := current_page_index.toNat
    let page_text := pdfPages.getD i ""
    let content := "--- Page " ++ toString (current_page_index + 1) ++
      " Content ---\n" ++ page_text ++ "\n\n"
    if current_page_index + 1 < pdfPages.length then
      content ++ "--- Page " ++ toString (current_page_index + 2) ++
        " Content ---\n" ++ pdfPages.getD (i + 1) ""
    else
      content ++ "--- End of Document ---"
  else
    "Error: Current page index " ++ toString current_page_index ++
      " is out of bounds."

/-! ## tools.py: save_document -/

/-- Outcome of `json.loads` on a string metadata argument (an external
library call, modelled as an oracle): it returns a JSON object (here an
association list with string values, the shape `save_document` reads), some
non-object value, or raises. -/
inductive JsonParse where
  | obj (d : List (String × String))
  | nonObj
  | fail
deriving DecidableEq

/-- The `metadata` argument of `save_document`: Python accepts a `dict`, a
`str` (tagged with its `json.loads` outcome), or any other value (for which
`md` stays `{}`).  Dictionary values are modelled as strings, the only shape
the downstream normalizers accept without raising. -/
inductive PyMetadata where
  | ofDict (d : List (String × String))
  | ofStr (s : String) (parsed : JsonParse)
  | ofOther
deriving DecidableEq

/-- Python `md.get(k1) or md.get(k2) or md.get(k3) or ""`: the first key
whose value is truthy (a non-empty string), else `""`. -/
def firstTruthy (d : List (String × String)) : List String → String
  | [] => ""
  | k :: ks =>
    match d.lookup k with
    | some v => if v = "" then firstTruthy d ks else v
    | none => firstTruthy d ks

/-- The filesystem visible to `save_document`: output path to written page
content (the file emitted by `PdfWriter.write` is determined by the pages
added, modelled as their extracted texts). -/
structure FS where
  files : List (String × List String)
deriving DecidableEq

/-- Writing a file creates it, or silently overwrites an existing one. -/
def fsWrite (fs : FS) (path : String) (content : List String) : FS :=
  ⟨(fs.files.filter fun e => e.1 ≠ path) ++ [(path, content)]⟩

/-- The loop `for page_num in page_indices: pdf_writer.add_page(
pdf_reader.pages[page_num])`: collects the selected pages in the given
order, or raises `IndexError` (modelled as `none`) at the first index that
is out of range for the source PDF. -/
def collectPages (pdf : List String) : List Nat → Option (List String)
  | [] => some []
  | i :: rest =>
    if i < pdf.length then (collectPages pdf rest).map (pdf.getD i "" :: ·)
    else none

def OUTPUT_DIR : String := "output_documents"

/-- The title slug of tools.py line 223:
`re.sub(r'[\W_]+', '_', (title_raw or "").strip()) or "untitled"`. -/
def sanitize_title (title_raw : String) : String :=
  let t := pyCollapseNonWord (pyStrip title_raw)
  if t = "" then "untitled" else t

/-- tools.py `save_document` (lines 202-238).  The empty-selection check
precedes the `try` block; inside it, metadata is coalesced through alias
keys, normalized, and the output file is opened only after every requested
page has been added to the writer, so any failure (string metadata that
parses to a non-object, hence `md.get` raising `AttributeError`, or an
out-of-range page index raising `IndexError`) is caught and returned as an
error string with the filesystem untouched.  The Python exception texts are
abbreviated; every error return starts with `"Error"` as in the source. -/
def save_document (page_indices : List Nat) (metadata : PyMetadata)
    (pdf : List String) (fs : FS) : String × FS :=
  if page_indices = [] then ("Error: No page indices provided to save.", fs)
  else
    match metadata with
    | .ofStr _ .nonObj =>
      ("Error saving PDF to <unknown>: metadata object has no attribute get", fs)
    | _ =>
      let md : List (String × String) :=
        match metadata with
        | .ofDict d => d
        | .ofStr _ (.obj d) => d
        | .ofStr s .fail => [("title", s)]
        | .ofStr _ .nonObj => []
        | .ofOther => []
      let date_raw := firstTruthy md ["date", "datum", "date_raw"]
      let company_raw := firstTruthy md ["company", "sender", "from"]
      let title_raw := firstTruthy md ["title", "subject", "heading"]
      let norm_date := normalize_date date_raw
      let short_company := shorten_company company_raw
      let sanitized_company := pyCollapseNonWord short_company
      let sanitized_title := sanitize_title title_raw
      let filename :=
        norm_date ++ "-" ++ sanitized_company ++ "-" ++ sanitized_title ++ ".pdf"
      let output_path := OUTPUT_DIR ++ "/" ++ filename
      match collectPages pdf page_indices with
      | none =>
        ("Error saving PDF to " ++ output_path ++ ": sequence index out of range",
          fs)
      | some content =>
        ("Successfully saved document to: " ++ output_path,
          fsWrite fs output_path content)

/-! ## agent.py: the LangGraph controller -/

/-- A tool call carried by an assistant message.  `tool_node` reads the
`name` and `id` fields; the `page_indices` argument (supplied by the
reasoning backend for `save_document`) is the only argument it forwards into
the controller's ghost trace. -/
structure ToolCall where
  name : String
  id : String
  page_indices : List Nat
deriving DecidableEq

/-- Message history entries: `HumanMessage`, the agent's turn (an assistant
message with its `tool_calls`), and the `ToolMessage` wrapper defined in
agent.py lines 9-12. -/
inductive Msg where
  | human (content : String)
  | assistant (tool_calls : List ToolCall)
  | tool (tool_call_id : String) (content : String)
deriving DecidableEq

/-- agent.py `AgentState` (lines 21-25), instrumented with two ghost fields
that record the run's observable trace: `saved` collects the `page_indices`
lists passed to `save_document`, and `advances` counts cursor increments.
Neither ghost field influences any transition. -/
structure AgentState where
  messages : List Msg
  current_page_index : Nat
  total_pages : Nat
  current_document_pages : List Nat
  saved : List (List Nat)
  advances : Nat
deriving DecidableEq

/-- `state["messages"][-1].tool_calls`.  In every reachable call of
`tool_node` the last message is the agent turn just produced by
`agent_node`; other message shapes (on which Python would raise
`AttributeError`) are mapped to the empty call list. -/
def lastToolCalls (ms : List Msg) : List ToolCall :=
  match ms.getLast? with
  | some (.assistant tcs) => tcs
  | _ => []

/-- agent.py `agent_node` (lines 50-62) with the reasoning backend's reply
`result` supplied as an oracle: all state keys are preserved and `messages`
is replaced by the one-element list `[result]` (the `AgentState` TypedDict
has no message reducer, so the update overwrites the history). -/
def agent_node (result : Msg) (st : AgentState) : AgentState :=
  { st with messages := [result] }

/-- One iteration of the dispatch loop in `tool_node` (lines 78-94):
executes the call, records its `ToolMessage`, and on `save_document` starts
a new in-progress document seeded with the current page and increments the
cursor.  The `ask_human_for_confirmation` branch of the source is a `pass`.
`invoke` is `tool_executor.invoke`, modelled as an oracle returning the
tool's output string. -/
def toolCallStep (invoke : ToolCall → String)
    (acc : List Msg × AgentState) (tc : ToolCall) : List Msg × AgentState :=
  let output := invoke tc
  let tool_messages := acc.1 ++ [Msg.tool tc.id output]
  let st := acc.2
  let st :=
    if tc.name = "save_document" then
      { st with
        current_document_pages := [st.current_page_index]
        current_page_index := st.current_page_index + 1
        saved := st.saved ++ [tc.page_indices]
        advances := st.advances + 1 }
    else st
  (tool_messages, st)

/-- agent.py `tool_node` (lines 64-96): with no tool call, append the cursor
to the in-progress document and advance; otherwise dispatch every tool call
and extend the message history with the collected tool messages. -/
def tool_node (invoke : ToolCall → String) (st : AgentState) : AgentState :=
  match lastToolCalls st.messages with
  | [] =>
    { st with
      current_document_pages := st.current_document_pages ++ [st.current_page_index]
      current_page_index := st.current_page_index + 1
      advances := st.advances + 1 }
  | tc :: tcs =>
    let folded := (tc :: tcs).foldl (toolCallStep invoke) ([], st)
    { folded.2 with messages := folded.2.messages ++ folded.1 }

/-- agent.py `should_continue` (lines 98-102): `true` means `END`. -/
def should_continue (st : AgentState) : Bool :=
  st.total_pages ≤ st.current_page_index

/-- The page-walk loop: while `should_continue` permits, run an agent turn
(whose decision, the assistant message's tool calls, comes from the decision
trace `ds`) followed by `tool_node`.  This is the loop main.py builds from
`agent_node`, `should_continue` and `tool_node` (main.py lines 59-65; the
source's conditional edge routes `"agent"` where the tools node is the only
continuation, which this loop takes as the intended wiring). -/
def runLoop (invoke : ToolCall → String) :
    List (List ToolCall) → AgentState → AgentState
  | [], st => st
  | d :: ds, st =>
    if should_continue st then st
    else runLoop invoke ds (tool_node invoke (agent_node (.assistant d) st))

/-- main.py `initial_state` (lines 68-73), ghost fields empty. -/
def initState (total_pages : Nat) : AgentState :=
  { messages := [.human "Please use the read_consecutive_pages tool to read the first two pages and decide if a split is needed."]
    current_page_index := 0
    total_pages := total_pages
    current_document_pages := []
    saved := []
    advances := 0 }

/-- A cooperative agent turn: no tool call, or a single tool call which, if
it is `save_document`, passes exactly the controller's in-progress page
buffer as `page_indices` (the behaviour the system prompt demands of the
reasoning backend). -/
def goodDecision (st : AgentState) (d : List ToolCall) : Bool :=
  match d with
  | [] => true
  | [tc] =>
    if tc.name = "save_document" then tc.page_indices = st.current_document_pages
    else true
  | _ => false

/-- Every decision consumed by `runLoop` along the trace is cooperative. -/
def goodRun (invoke : ToolCall → String) :
    List (List ToolCall) → AgentState → Bool
  | [], _ => true
  | d :: ds, st =>
    if should_continue st then true
    else goodDecision st d &&
      goodRun invoke ds (tool_node invoke (agent_node (.assistant d) st))

/-! ## ollama_agent.py: OllamaPDFSplitterAgent.run -/

/-- Outcome of one executed Python call, as seen by the `try/except` around
`tool_function(**args)`: a returned value or an exception text. -/
inductive PyOutcome where
  | ok (val : String)
  | exn (msg : String)
deriving DecidableEq

/-- A tool call in an Ollama response: `call["function"]["name"]` (a missing
name is folded into the falsy `""`), `call["id"]`, and the oracle outcome of
invoking the named global with `call["function"]["arguments"]`. -/
structure OToolCall where
  id : String
  name : String
  outcome : PyOutcome
deriving DecidableEq

/-- Messages of the Ollama chat protocol (plain dicts in the source). -/
inductive OMsg where
  | system (content : String)
  | user (content : String)
  | assistant (content : String) (tool_calls : List OToolCall)
  | toolResult (tool_call_id : String) (name : String) (content : String)
deriving DecidableEq

/-- The `message` field of a successful `client.chat` response. -/
structure AsstResp where
  content : String
  tool_calls : List OToolCall
deriving DecidableEq

/-- Outcome of one `client.chat(**ollama_request)` call: a response whose
`message` may be absent/falsy (`none`), or a raised exception. -/
inductive ChatOutcome where
  | ok (message : Option AsstResp)
  | exn (msg : String)
deriving DecidableEq

/-- The five tool functions imported into ollama_agent.py's module namespace
(lines 9 and 12-72): these are the declared tools. -/
def ollamaToolNames : List String :=
  ["read_consecutive_pages", "search_for_similar_cases",
   "ask_human_for_confirmation", "save_document", "extract_metadata"]

/-- The remaining bindings of ollama_agent.py's module namespace that
`globals().get(name)` can find: imported modules and typing names, the base
class, the tool schema list, the agent class, and the module dunders.  None
of them is callable as a tool, so invoking one raises (its `PyOutcome` is an
exception in any real run). -/
def ollamaOtherGlobals : List String :=
  ["ollama", "List", "Dict", "Any", "config", "BasePDFSplitterAgent",
   "ollama_tools", "OllamaPDFSplitterAgent", "__name__", "__doc__",
   "__package__", "__loader__", "__spec__", "__file__", "__cached__",
   "__builtins__"]

/-- One iteration of the dispatch loop of `OllamaPDFSplitterAgent.run`
(ollama_agent.py lines 143-195): a falsy name is skipped with `continue`; a
name bound in `globals()` is called, its result (or the caught exception's
`Error calling tool` text) appended as a tool message; an unbound name
appends the `Unknown tool` message. -/
def dispatchCall (msgs : List OMsg) (call : OToolCall) : List OMsg :=
  if call.name = "" then msgs
  else if ollamaToolNames.contains call.name
      || ollamaOtherGlobals.contains call.name then
    match call.outcome with
    | .ok out => msgs ++ [.toolResult call.id call.name out]
    | .exn e =>
      msgs ++ [.toolResult call.id call.name
        ("Error calling tool " ++ call.name ++ ": " ++ e)]
  else
    msgs ++ [.toolResult call.id call.name ("Unknown tool: " ++ call.name)]

/-- Processing of a successful chat response (lines 136-195): append the
response message when it is truthy, then dispatch each of its tool calls. -/
def processResponse (r : Option AsstResp) (msgs : List OMsg) : List OMsg :=
  match r with
  | none => msgs
  | some m =>
    m.tool_calls.foldl dispatchCall (msgs ++ [.assistant m.content m.tool_calls])

/-- ollama_agent.py `OllamaPDFSplitterAgent.run` (lines 79-198).  `first`
and `second` are the oracle outcomes of the first `client.chat` call and of
its single retry; the retry is attempted only when the first call raises,
and if it raises too, a synthetic tool message carrying the error text is
appended and the method returns normally with the state unchanged
(`update_state` is the base-class identity).  The run state `st` is opaque
to this method.  The final `Nat` is ghost instrumentation counting how many
`client.chat` calls were made. -/
def ollamaAgentRun {σ : Type} (first second : ChatOutcome)
    (msgs : List OMsg) (st : σ) : (List OMsg × σ) × Nat :=
  match first with
  | .ok r => ((processResponse r msgs, st), 1)
  | .exn _ =>
    match second with
    | .ok r => ((processResponse r msgs, st), 2)
    | .exn e2 =>
      ((msgs ++ [.toolResult "ollama_error" "ollama_error"
          ("Ollama chat failed: " ++ e2)], st), 2)

/-- Tool calls carried by an Ollama chat message (only assistant messages
carry any). -/
def oMsgToolCalls : OMsg → List OToolCall
  | .assistant _ tcs => tcs
  | _ => []

/-- Modelled from the spec: the SplitController loop that drives
`OllamaPDFSplitterAgent.run` is not part of `src` (only `BasePDFSplitterAgent`
declares the interface), so its turn dispatch is taken from spec section 4.5:
a turn with no tool call appends the cursor to the in-progress document and
increments the cursor; a `save_document` call hands its pages to the writer,
re-seeds the in-progress document with the current cursor and increments it;
any other call changes neither cursor nor buffer. -/
def specControllerStep (turn : OMsg) (cursor : Nat) (buffer : List Nat)
    (saved : List (List Nat)) : Nat × List Nat × List (List Nat) :=
  match oMsgToolCalls turn with
  | [] => (cursor + 1, buffer ++ [cursor], saved)
  | tcs =>
    tcs.foldl
      (fun (acc : Nat × List Nat × List (List Nat)) tc =>
        if tc.name = "save_document" then
          (acc.1 + 1, [acc.1], acc.2.2 ++ [acc.2.1])
        else acc)
      (cursor, buffer, saved)

/-! ## main.py: ToolExecutor -/

/-- The tool table of main.py's `ToolExecutor` (lines 43-45), keyed by name;
each entry is the tool function on its positional argument list (arguments
modelled as opaque strings).  `tools_list` (line 40) registers exactly four
tools: `extract_metadata` is not among them. -/
def mainToolExecutor (fRead fSearch fAsk fSave : List String → String) :
    List (String × (List String → String)) :=
  [("read_consecutive_pages", fRead), ("search_for_similar_cases", fSearch),
   ("ask_human_for_confirmation", fAsk), ("save_document", fSave)]

/-- main.py `ToolExecutor.invoke` (lines 46-50): look the requested name up
in the tool table; call it on the args when found, otherwise return the
visible `not found` result string. -/
def toolExecutorInvoke (tools : List (String × (List String → String)))
    (name : String) (args : List String) : String :=
  match tools.lookup name with
  | some fn => fn args
  | none => "Tool " ++ "'" ++ name ++ "'" ++ " not found."

/-! ## Helper lemmas -/

/-- Every character emitted by the collapse scan is alphanumeric or an
underscore. -/
lemma collapseAux_mem :
    ∀ (l : List Char) (b : Bool) (c : Char),
      c ∈ collapseAux b l → c.isAlphanum = true ∨ c = '_' := by
  intro l
  induction l with
  | nil => intro b c h; simp [collapseAux] at h
  | cons a rest ih =>
    intro b c h
    by_cases ha : a.isAlphanum
    · simp only [collapseAux, ha, if_true, List.mem_cons] at h
      rcases h with h | h
      · exact Or.inl (h ▸ ha)
      · exact ih false c h
    · cases b with
      | true =>
        simp only [collapseAux, ha, if_false, Bool.false_eq_true] at h
        exact ih true c h
      | false =>
        simp only [collapseAux, ha, if_false, Bool.false_eq_true,
          List.mem_cons] at h
        rcases h with h | h
        · exact Or.inr h
        · exact ih true c h

/-- After an underscore was just emitted, the next emitted character is
alphanumeric. -/
lemma collapseAux_head_alnum :
    ∀ (l : List Char) (c : Char),
      (collapseAux true l).head? = some c → c.isAlphanum = true := by
  intro l
  induction l with
  | nil => intro c h; simp [collapseAux] at h
  | cons a rest ih =>
    intro c h
    by_cases ha : a.isAlphanum
    · simp only [collapseAux, ha, if_true, List.head?_cons,
        Option.some.injEq] at h
      exact h ▸ ha
    · simp only [collapseAux, ha, if_false, Bool.false_eq_true] at h
      exact ih c h

/-- No two adjacent characters of the collapsed string are both
non-alphanumeric: each non-alphanumeric run became a single underscore. -/
lemma collapseAux_chain :
    ∀ (l : List Char) (b : Bool),
      (collapseAux b l).Chain'
        (fun a c => a.isAlphanum = true ∨ c.isAlphanum = true) := by
  intro l
  induction l with
  | nil => intro b; simp [collapseAux]
  | cons a rest ih =>
    intro b
    by_cases ha : a.isAlphanum
    · simp only [collapseAux, ha, if_true]
      exact List.chain'_cons'.mpr ⟨fun _ _ => Or.inl ha, ih false⟩
    · cases b with
      | true => simpa only [collapseAux, ha, if_false, Bool.false_eq_true]
          using ih true
      | false =>
        simp only [collapseAux, ha, if_false, Bool.false_eq_true]
        refine List.chain'_cons'.mpr ⟨fun c hc => ?_, ih true⟩
        exact Or.inr (collapseAux_head_alnum rest c hc)

/-- The collapse keeps the alphanumeric characters unchanged and in order. -/
lemma collapseAux_filter :
    ∀ (l : List Char) (b : Bool),
      (collapseAux b l).filter Char.isAlphanum = l.filter Char.isAlphanum := by
  intro l
  induction l with
  | nil => intro b; simp [collapseAux]
  | cons a rest ih =>
    intro b
    by_cases ha : a.isAlphanum
    · simp only [collapseAux, ha, if_true, List.filter_cons_of_pos, ih false]
    · cases b with
      | true =>
        have h1 : collapseAux true (a :: rest) = collapseAux true rest := by
          simp [collapseAux, ha]
        rw [h1, ih true]
        simp [ha]
      | false =>
        simp only [collapseAux, ha, if_false, Bool.false_eq_true]
        rw [List.filter_cons_of_neg (by simp), ih true,
          List.filter_cons_of_neg (by simp [ha])]

/-! ## Claim theorems -/

/-- C6: `normalize_date` is total and deterministic (a Lean function of the
input string; every Python failure path is an internal `Option`), and
satisfies the four specified evaluations: the two recognized date formats
normalize to `"20250818"`, the empty string maps to the sentinel
`"unknown_date"`, and `"garbage"` maps to its sanitized copy instead of
failing. -/
theorem C6_normalize_date_values :
    normalize_date "18.08.2025" = "20250818" ∧
    normalize_date "2025-08-18" = "20250818" ∧
    normalize_date "" = "unknown_date" ∧
    normalize_date "garbage" = "garbage" := by
  refine ⟨by decide, by decide, by decide, by decide⟩

/-- C10: for the non-empty input `"GmbH"` — a name that is nothing but the
legal suffix — `shorten_company` returns the empty string rather than
`"UnknownCompany"`: the suffix strip runs after the emptiness check, and the
initials of zero remaining words are `""`.  (The sentinel is produced only
for the empty input, third conjunct.) -/
theorem C10_shorten_company_suffix_only :
    shorten_company "GmbH" = "" ∧
    "GmbH" ≠ "" ∧
    shorten_company "" = "UnknownCompany" := by
  refine ⟨by decide, by decide, by decide⟩

/-- C7 counterexample: the writer's title sanitization maps
`"Invoice #2025/08!!"` to `"Invoice_2025_08_"` — the trailing run `"!!"`
also becomes an underscore — not to the claimed `"Invoice_2025_08"`. -/
theorem C7_counterexample :
    sanitize_title "Invoice #2025/08!!" = "Invoice_2025_08_" ∧
    sanitize_title "Invoice #2025/08!!" ≠ "Invoice_2025_08" := by
  refine ⟨by decide, by decide⟩

/-- C7 (amended): the title sanitization collapses every run of
non-alphanumeric characters — leading and trailing runs included, so a
trailing underscore may remain — to a single underscore (the output consists
of the input's alphanumeric characters, in order, and single underscores
with no two adjacent), maps the empty title to `"untitled"`, and sends
`"Invoice #2025/08!!"` to `"Invoice_2025_08_"`. -/
theorem C7_sanitize_title_collapse :
    (∀ s : String,
      (∀ c ∈ (pyCollapseNonWord s).data, c.isAlphanum = true ∨ c = '_') ∧
      (pyCollapseNonWord s).data.Chain'
        (fun a c => a.isAlphanum = true ∨ c.isAlphanum = true) ∧
      (pyCollapseNonWord s).data.filter Char.isAlphanum =
        s.data.filter Char.isAlphanum) ∧
    sanitize_title "" = "untitled" ∧
    sanitize_title "Invoice #2025/08!!" = "Invoice_2025_08_" := by
  refine ⟨fun s => ⟨fun c hc => collapseAux_mem s.data false c hc,
    collapseAux_chain s.data false, collapseAux_filter s.data false⟩,
    by decide, by decide⟩

/-- C7 witness: the amended theorem applied at the concrete title, its
membership hypothesis discharged at the character `I`. -/
theorem C7_witness :
    'I' ∈ (pyCollapseNonWord "Invoice #2025/08!!").data ∧
    ('I'.isAlphanum = true ∨ 'I' = '_') :=
  ⟨by decide,
    (C7_sanitize_title_collapse.1 "Invoice #2025/08!!").1 'I' (by decide)⟩

/-- C4: `save_document` with an empty `page_indices` list returns the
explicit error string — the check precedes the `try` block, so nothing can
raise — and leaves the filesystem untouched, for every metadata value. -/
theorem C4_save_document_empty_selection (metadata : PyMetadata)
    (pdf : List String) (fs : FS) :
    save_document [] metadata pdf fs =
      ("Error: No page indices provided to save.", fs) := by
  simp [save_document]

/-- The page-collection loop raises (returns `none`) whenever some requested
index is out of range for the source PDF. -/
lemma collectPages_none (pdf : List String) :
    ∀ idxs : List Nat, (∃ i ∈ idxs, pdf.length ≤ i) →
      collectPages pdf idxs = none := by
  intro idxs
  induction idxs with
  | nil => intro h; simp at h
  | cons j rest ih =>
    intro h
    rcases h with ⟨i, hi, hlen⟩
    rcases List.mem_cons.mp hi with h | h
    · subst h
      simp [collectPages, Nat.not_lt.mpr hlen]
    · by_cases hj : j < pdf.length
      · simp [collectPages, hj, ih ⟨i, h, hlen⟩]
      · simp [collectPages, hj]

/-- A prefix of a string's characters is a prefix of any extension's. -/
lemma isPrefix_append_of_isPrefix (p : List Char) (s t : String)
    (h : List.IsPrefix p s.data) : List.IsPrefix p (s ++ t).data := by
  rw [String.data_append]
  exact h.trans (List.prefix_append _ _)

/-- Strings built as `"Error saving PDF to " ++ t ++ u` start with
`"Error"`. -/
lemma error_isPrefix2 (t u : String) :
    List.IsPrefix "Error".data ("Error saving PDF to " ++ t ++ u).data :=
  isPrefix_append_of_isPrefix _ _ _
    (isPrefix_append_of_isPrefix _ _ _ (by decide))

/-- C9: `save_document` is total — after the emptiness check the whole body
sits in the `try`, so every branch returns a string — and when any requested
page index is out of range for the source PDF the `IndexError` raised while
adding pages is caught and returned as an error string (starting with
`"Error"`), with the filesystem unchanged: the output file is opened only
after every requested page has been added to the writer, so no file is
created. -/
theorem C9_save_document_bad_index (page_indices : List Nat)
    (metadata : PyMetadata) (pdf : List String) (fs : FS)
    (hne : page_indices ≠ [])
    (hbad : ∃ i ∈ page_indices, pdf.length ≤ i) :
    List.IsPrefix "Error".data
      (save_document page_indices metadata pdf fs).1.data ∧
    (save_document page_indices metadata pdf fs).2 = fs := by
  have hcol := collectPages_none pdf page_indices hbad
  unfold save_document
  rw [if_neg hne]
  split
  · refine ⟨?_, rfl⟩
    show List.IsPrefix "Error".data
      ("Error saving PDF to <unknown>: metadata object has no attribute get" : String).data
    decide
  · simp only [hcol]
    exact ⟨error_isPrefix2 _ _, trivial⟩

/-- C9 witness: index 5 is out of range for a one-page PDF; the call returns
an error string and leaves the filesystem unchanged. -/
theorem C9_witness :
    (([0, 5] : List Nat) ≠ [] ∧ ∃ i ∈ ([0, 5] : List Nat), (["a"] : List String).length ≤ i) ∧
    (List.IsPrefix "Error".data
        (save_document [0, 5] (.ofDict []) ["a"] ⟨[]⟩).1.data ∧
      (save_document [0, 5] (.ofDict []) ["a"] ⟨[]⟩).2 = ⟨[]⟩) :=
  ⟨⟨by decide, by decide⟩,
    C9_save_document_bad_index [0, 5] (.ofDict []) ["a"] ⟨[]⟩ (by decide) (by decide)⟩

/-- C3: `read_consecutive_pages` returns the out-of-bounds error exactly for
indices outside `[0, total_pages)` (first conjunct, an equivalence: every
in-bounds read returns page content, never the error), and on the last page
of a non-empty PDF it succeeds with the last page's text followed by the end
sentinel in place of a successor page.  The operation is read-only by
construction: the model is a pure function of the page list, mirroring a
body that only ever reads the reader object. -/
theorem C3_read_consecutive_pages_bounds (pdf : List String) (i : Int) :
    (read_consecutive_pages pdf i =
        "Error: Current page index " ++ toString i ++ " is out of bounds."
      ↔ ¬(0 ≤ i ∧ i < (pdf.length : Int))) ∧
    (pdf ≠ [] →
      read_consecutive_pages pdf ((pdf.length : Int) - 1) =
        "--- Page " ++ toString (pdf.length : Int) ++ " Content ---\n" ++
          pdf.getD (pdf.length - 1) "" ++ "\n\n" ++ "--- End of Document ---") := by
  constructor
  · constructor
    · intro h hin
      have hp : List.IsPrefix "---".data (read_consecutive_pages pdf i).data := by
        unfold read_consecutive_pages
        rw [if_pos hin]
        dsimp only
        by_cases h2 : i + 1 < (pdf.length : Int)
        · rw [if_pos h2]
          repeat apply isPrefix_append_of_isPrefix
          decide
        · rw [if_neg h2]
          repeat apply isPrefix_append_of_isPrefix
          decide
      rw [h] at hp
      have herr : List.IsPrefix "Error".data
          ("Error: Current page index " ++ toString i ++ " is out of bounds.").data := by
        repeat apply isPrefix_append_of_isPrefix
        decide
      rcases List.prefix_or_prefix_of_prefix hp herr with hh | hh
      · revert hh; decide
      · revert hh; decide
    · intro h
      unfold read_consecutive_pages
      rw [if_neg h]
  · intro hne
    have hN : 1 ≤ pdf.length := List.length_pos.mpr hne
    unfold read_consecutive_pages
    have hc : 0 ≤ (pdf.length : Int) - 1 ∧
        (pdf.length : Int) - 1 < (pdf.length : Int) := by
      constructor <;> omega
    rw [if_pos hc]
    dsimp only
    have h2 : ¬((pdf.length : Int) - 1 + 1 < (pdf.length : Int)) := by omega
    rw [if_neg h2]
    rw [show (pdf.length : Int) - 1 + 1 = (pdf.length : Int) from by omega]
    rw [show ((pdf.length : Int) - 1).toNat = pdf.length - 1 from by omega]

/-- C3 witness: on a one-page PDF, reading the last page (index 0) yields
the page text plus the end-of-document sentinel, and the error equivalence
instantiated at the out-of-bounds index 1 yields the error string. -/
theorem C3_witness :
    (["a"] : List String) ≠ [] ∧
    read_consecutive_pages ["a"] (((["a"] : List String).length : Int) - 1) =
      "--- Page " ++ toString (((["a"] : List String).length : Int)) ++
        " Content ---\n" ++ (["a"] : List String).getD (["a"].length - 1) "" ++
        "\n\n" ++ "--- End of Document ---" ∧
    read_consecutive_pages ["a"] 1 =
      "Error: Current page index " ++ toString (1 : Int) ++ " is out of bounds." :=
  ⟨by decide,
    (C3_read_consecutive_pages_bounds ["a"] 0).2 (by decide),
    ((C3_read_consecutive_pages_bounds ["a"] 1).1).mpr (by decide)⟩

/-- C2: one step of the `tool_node` dispatch.  With no tool call the cursor
value is appended to the in-progress page list and the cursor increments by
one (no message is added); with a single `save_document` call the
in-progress document is replaced by one holding exactly the cursor value,
the cursor increments by one, and the tool result joins the history; with a
single call to any of the four other tools the result joins the history and
neither the cursor nor the page list (nor the save trace) changes. -/
theorem C2_tool_node_step (invoke : ToolCall → String) (st : AgentState)
    (tc : ToolCall) :
    (lastToolCalls st.messages = [] →
      tool_node invoke st =
        { st with
          current_document_pages :=
            st.current_document_pages ++ [st.current_page_index]
          current_page_index := st.current_page_index + 1
          advances := st.advances + 1 }) ∧
    (lastToolCalls st.messages = [tc] → tc.name = "save_document" →
      tool_node invoke st =
        { st with
          messages := st.messages ++ [.tool tc.id (invoke tc)]
          current_document_pages := [st.current_page_index]
          current_page_index := st.current_page_index + 1
          saved := st.saved ++ [tc.page_indices]
          advances := st.advances + 1 }) ∧
    (lastToolCalls st.messages = [tc] →
      (tc.name = "read_consecutive_pages" ∨
        tc.name = "search_for_similar_cases" ∨
        tc.name = "ask_human_for_confirmation" ∨
        tc.name = "extract_metadata") →
      tool_node invoke st =
        { st with messages := st.messages ++ [.tool tc.id (invoke tc)] }) := by
  refine ⟨fun h => ?_, fun h hname => ?_, fun h hname => ?_⟩
  · simp [tool_node, h]
  · simp [tool_node, h, toolCallStep, hname]
  · rcases hname with hn | hn | hn | hn <;>
      simp [tool_node, h, toolCallStep, hn]

/-- C2 witness: the three cases of the dispatch theorem applied at concrete
states, each hypothesis discharged by evaluation. -/
theorem C2_witness :
    (tool_node (fun _ => "out") (initState 3) =
      { initState 3 with
        current_document_pages := [0]
        current_page_index := 1
        advances := 1 }) ∧
    (tool_node (fun _ => "out")
        { initState 3 with
          messages := [.assistant [⟨"save_document", "c1", [0]⟩]] } =
      { initState 3 with
        messages := [Msg.assistant [⟨"save_document", "c1", [0]⟩],
          .tool "c1" "out"]
        current_document_pages := [0]
        current_page_index := 1
        saved := [[0]]
        advances := 1 }) ∧
    (tool_node (fun _ => "out")
        { initState 3 with
          messages := [.assistant [⟨"extract_metadata", "c2", []⟩]] } =
      { initState 3 with
        messages := [Msg.assistant [⟨"extract_metadata", "c2", []⟩],
          .tool "c2" "out"] }) := by
  refine ⟨?_, ?_, ?_⟩
  · exact (C2_tool_node_step (fun _ => "out") (initState 3)
      ⟨"save_document", "c1", [0]⟩).1 (by decide)
  · have h := (C2_tool_node_step (fun _ => "out")
      { initState 3 with
        messages := [.assistant [⟨"save_document", "c1", [0]⟩]] }
      ⟨"save_document", "c1", [0]⟩).2.1 (by decide) rfl
    simpa [initState] using h
  · have h := (C2_tool_node_step (fun _ => "out")
      { initState 3 with
        messages := [.assistant [⟨"extract_metadata", "c2", []⟩]] }
      ⟨"extract_metadata", "c2", []⟩).2.2 (by decide)
      (Or.inr (Or.inr (Or.inr rfl)))
    simpa [initState] using h

/-- C5: failure handling of `OllamaPDFSplitterAgent.run`.  When the first
`client.chat` call raises and the single retry raises too, the method
appends the synthetic tool-result message carrying the error text, returns
normally (a value, not an exception) with the state unchanged, and made
exactly two backend calls; when the first call succeeds, no retry happens
(exactly one call).  The synthetic turn carries no tool call, so the
controller step on it advances the cursor by one into the in-progress
document without any save — the fail-open advance. -/
theorem C5_ollama_retry_failopen (σ : Type) (st : σ) (msgs : List OMsg)
    (first second : ChatOutcome) :
    (∀ e1 e2, first = .exn e1 → second = .exn e2 →
      ollamaAgentRun first second msgs st =
        ((msgs ++ [.toolResult "ollama_error" "ollama_error"
            ("Ollama chat failed: " ++ e2)], st), 2)) ∧
    (∀ r, first = .ok r → (ollamaAgentRun first second msgs st).2 = 1) ∧
    (∀ (cursor : Nat) (buffer : List Nat) (saved : List (List Nat))
        (tid tname content : String),
      specControllerStep (.toolResult tid tname content) cursor buffer saved =
        (cursor + 1, buffer ++ [cursor], saved)) := by
  refine ⟨fun e1 e2 h1 h2 => ?_, fun r h1 => ?_, fun cursor buffer saved tid tname content => ?_⟩
  · subst h1; subst h2; rfl
  · subst h1; rfl
  · rfl

/-- C5 witness: the retry theorem applied with both backend calls failing,
and with the first call succeeding. -/
theorem C5_witness :
    (ollamaAgentRun (σ := Nat) (.exn "boom1") (.exn "boom2") [] 7 =
      (([.toolResult "ollama_error" "ollama_error"
          ("Ollama chat failed: " ++ "boom2")], 7), 2)) ∧
    (ollamaAgentRun (σ := Nat) (.ok none) (.exn "boom2") [] 7).2 = 1 ∧
    specControllerStep (.toolResult "ollama_error" "ollama_error" "x") 4 [2, 3] [[0, 1]] =
      (5, [2, 3] ++ [4], [[0, 1]]) :=
  ⟨(C5_ollama_retry_failopen Nat 7 [] (.exn "boom1") (.exn "boom2")).1
      "boom1" "boom2" rfl rfl,
    (C5_ollama_retry_failopen Nat 7 [] (.ok none) (.exn "boom2")).2.1 none rfl,
    (C5_ollama_retry_failopen Nat 7 [] (.ok none) (.exn "boom2")).2.2
      4 [2, 3] [[0, 1]] "ollama_error" "ollama_error" "x"⟩

/-- C8 counterexample: a tool call whose requested name is the falsy `""` —
not one of the five declared tools — is skipped by `continue` with no
message appended at all: processing a response with that single call leaves
only the assistant message itself, a silent no-op rather than a visible
unknown-tool result. -/
theorem C8_counterexample :
    "" ∉ ollamaToolNames ∧
    dispatchCall [] ⟨"call0", "", .ok "y"⟩ = [] ∧
    processResponse (some ⟨"x", [⟨"call0", "", .ok "y"⟩]⟩) [] =
      [.assistant "x" [⟨"call0", "", .ok "y"⟩]] := by
  refine ⟨by decide, by decide, by decide⟩

/-- C8 (amended): in the ollama dispatcher every non-empty requested name
that is bound to nothing in the module namespace yields the visible
`Unknown tool` message and the loop continues; a non-empty name bound to a
non-tool module global is called, raises, and yields the visible
`Error calling tool` message instead; the empty (falsy) name alone is
skipped silently.  In main.py's `ToolExecutor.invoke`, every name outside
the four registered tools returns the visible `not found` result. -/
theorem C8_unknown_tool_visible (msgs : List OMsg) (call : OToolCall) :
    (call.name ≠ "" → call.name ∉ ollamaToolNames →
      call.name ∉ ollamaOtherGlobals →
      dispatchCall msgs call =
        msgs ++ [.toolResult call.id call.name
          ("Unknown tool: " ++ call.name)]) ∧
    (∀ e, call.name ≠ "" → call.name ∈ ollamaOtherGlobals →
      call.outcome = .exn e →
      dispatchCall msgs call =
        msgs ++ [.toolResult call.id call.name
          ("Error calling tool " ++ call.name ++ ": " ++ e)]) ∧
    (call.name = "" → dispatchCall msgs call = msgs) ∧
    (∀ (fRead fSearch fAsk fSave : List String → String)
        (tname : String) (args : List String),
      tname ≠ "read_consecutive_pages" → tname ≠ "search_for_similar_cases" →
      tname ≠ "ask_human_for_confirmation" → tname ≠ "save_document" →
      toolExecutorInvoke (mainToolExecutor fRead fSearch fAsk fSave) tname args =
        "Tool " ++ "'" ++ tname ++ "'" ++ " not found.") := by
  refine ⟨fun h1 h2 h3 => ?_, fun e h1 h2 h3 => ?_, fun h1 => ?_,
    fun fRead fSearch fAsk fSave tname args n1 n2 n3 n4 => ?_⟩
  · simp [dispatchCall, h1, h2, h3]
  · simp [dispatchCall, h1, h2, h3]
  · simp [dispatchCall, h1]
  · simp [toolExecutorInvoke, mainToolExecutor, List.lookup,
      beq_eq_false_iff_ne.mpr n1, beq_eq_false_iff_ne.mpr n2,
      beq_eq_false_iff_ne.mpr n3, beq_eq_false_iff_ne.mpr n4]

/-- C8 witness: the amended dispatch theorem applied to a fabricated name, a
non-tool global, the empty name, and — for the main.py executor — the name
`extract_metadata`, which is absent from its four-tool table. -/
theorem C8_witness :
    (dispatchCall [] ⟨"c1", "make_coffee", .ok "y"⟩ =
      [.toolResult "c1" "make_coffee" ("Unknown tool: " ++ "make_coffee")]) ∧
    (dispatchCall [] ⟨"c2", "config", .exn "TypeError"⟩ =
      [.toolResult "c2" "config"
        ("Error calling tool " ++ "config" ++ ": " ++ "TypeError")]) ∧
    (dispatchCall [] ⟨"c3", "", .ok "y"⟩ = []) ∧
    (toolExecutorInvoke
        (mainToolExecutor (fun _ => "r") (fun _ => "s") (fun _ => "a") (fun _ => "v"))
        "extract_metadata" [] =
      "Tool " ++ "'" ++ "extract_metadata" ++ "'" ++ " not found.") :=
  ⟨(C8_unknown_tool_visible [] ⟨"c1", "make_coffee", .ok "y"⟩).1
      (by decide) (by decide) (by decide),
    (C8_unknown_tool_visible [] ⟨"c2", "config", .exn "TypeError"⟩).2.1
      "TypeError" (by decide) (by decide) rfl,
    (C8_unknown_tool_visible [] ⟨"c3", "", .ok "y"⟩).2.2.1 rfl,
    (C8_unknown_tool_visible [] ⟨"c3", "", .ok "y"⟩).2.2.2
      (fun _ => "r") (fun _ => "s") (fun _ => "a") (fun _ => "v")
      "extract_metadata" [] (by decide) (by decide) (by decide) (by decide)⟩

/-- Controller invariant: the cursor never passes the page count, the ghost
advance counter equals the cursor, and the pages handed to `save_document`
so far followed by the in-progress buffer are exactly `0, ..., cursor-1` in
order. -/
def stInv (N : Nat) (st : AgentState) : Prop :=
  st.total_pages = N ∧ st.current_page_index ≤ N ∧
  st.advances = st.current_page_index ∧
  st.saved.flatten ++ st.current_document_pages = List.range st.current_page_index

/-- One cooperative agent turn plus its dispatch preserves the controller
invariant. -/
lemma stInv_step (invoke : ToolCall → String) (N : Nat) (st : AgentState)
    (d : List ToolCall) (hI : stInv N st) (hlt : st.current_page_index < N)
    (hd : goodDecision st d = true) :
    stInv N (tool_node invoke (agent_node (.assistant d) st)) := by
  obtain ⟨hT, hle, hadv, hpart⟩ := hI
  rcases d with _ | ⟨tc, _ | ⟨tc2, rest⟩⟩
  · refine ⟨by simp [tool_node, agent_node, lastToolCalls, hT],
      by simp [tool_node, agent_node, lastToolCalls]; omega,
      by simp [tool_node, agent_node, lastToolCalls, hadv], ?_⟩
    simp only [tool_node, agent_node, lastToolCalls, List.getLast?_singleton]
    rw [← List.append_assoc, hpart, ← List.range_succ]
  · by_cases hn : tc.name = "save_document"
    · have hpi : tc.page_indices = st.current_document_pages := by
        have hd' := hd
        simp only [goodDecision, hn, if_true] at hd'
        exact of_decide_eq_true hd'
      refine ⟨by simp [tool_node, agent_node, lastToolCalls, toolCallStep, hn, hT],
        by simp [tool_node, agent_node, lastToolCalls, toolCallStep, hn]; omega,
        by simp [tool_node, agent_node, lastToolCalls, toolCallStep, hn, hadv], ?_⟩
      simp only [tool_node, agent_node, lastToolCalls, toolCallStep,
        List.getLast?_singleton, List.foldl, hn, if_true]
      simp only [List.flatten_append, List.flatten_cons, List.flatten_nil,
        List.append_nil, hpi]
      rw [hpart, ← List.range_succ]
    · refine ⟨by simp [tool_node, agent_node, lastToolCalls, toolCallStep, hn, hT],
        by simp [tool_node, agent_node, lastToolCalls, toolCallStep, hn]; omega,
        by simp [tool_node, agent_node, lastToolCalls, toolCallStep, hn, hadv],
        by simp [tool_node, agent_node, lastToolCalls, toolCallStep, hn, hpart]⟩
  · simp [goodDecision] at hd

/-- A cooperative run preserves the controller invariant. -/
lemma stInv_run (invoke : ToolCall → String) (N : Nat) :
    ∀ (ds : List (List ToolCall)) (st : AgentState),
      stInv N st → goodRun invoke ds st = true →
      stInv N (runLoop invoke ds st) := by
  intro ds
  induction ds with
  | nil => intro st hI _; simpa [runLoop] using hI
  | cons d rest ih =>
    intro st hI hg
    by_cases hsc : should_continue st = true
    · simpa [runLoop, hsc] using hI
    · have hsc' : should_continue st = false := by
        simpa [Bool.not_eq_true] using hsc
      have hg' : goodDecision st d = true ∧
          goodRun invoke rest
            (tool_node invoke (agent_node (.assistant d) st)) = true := by
        have := hg
        rw [goodRun, hsc'] at this
        simpa using this
      have hlt : st.current_page_index < N := by
        have h1 : ¬(st.total_pages ≤ st.current_page_index) := by
          simpa [should_continue] using hsc
        have h2 := hI.1
        omega
      rw [runLoop, if_neg (by simp [hsc'])]
      exact ih _ (stInv_step invoke N st d hI hlt hg'.1) hg'.2

/-- C1 counterexample: with one page and a single agent turn that makes no
tool call, the run completes (the cursor reaches 1 = N) while `save_document`
was never invoked: the lists passed to it over the run are none at all, so
they do not partition the page set — page 0 was silently dropped with the
in-progress document. -/
theorem C1_counterexample :
    (runLoop (fun _ => "ok") [[]] (initState 1)).current_page_index = 1 ∧
    (runLoop (fun _ => "ok") [[]] (initState 1)).saved = [] ∧
    (runLoop (fun _ => "ok") [[]] (initState 1)).current_document_pages = [0] := by
  refine ⟨by decide, by decide, by decide⟩

/-- C1 (amended): for every page count and every cooperative decision trace
(each turn yields at most one tool call, and every `save_document` call
passes exactly the in-progress buffer), a run of the controller loop to
completion ends with the cursor exactly at `N` having advanced `N` times,
and the page-index lists passed to `save_document`, followed by the final
in-progress buffer, concatenate to exactly `[0, 1, ..., N-1]` — pairwise
disjoint, nothing dropped, nothing duplicated, ascending within each list.
The final buffer itself is never passed to `save_document` by the
controller: the run's saves partition `{0, ..., N-1}` only together with it. -/
theorem C1_run_partition (invoke : ToolCall → String)
    (ds : List (List ToolCall)) (N : Nat) (hN : 1 ≤ N)
    (hg : goodRun invoke ds (initState N) = true)
    (hdone : N ≤ (runLoop invoke ds (initState N)).current_page_index) :
    (runLoop invoke ds (initState N)).current_page_index = N ∧
    (runLoop invoke ds (initState N)).advances = N ∧
    (runLoop invoke ds (initState N)).saved.flatten ++
        (runLoop invoke ds (initState N)).current_document_pages =
      List.range N ∧
    ∀ l ∈ (runLoop invoke ds (initState N)).saved ++
        [(runLoop invoke ds (initState N)).current_document_pages],
      l.Pairwise (· < ·) := by
  have hI0 : stInv N (initState N) := by
    exact ⟨rfl, by simp [initState], rfl, by simp [initState]⟩
  have hI := stInv_run invoke N ds (initState N) hI0 hg
  obtain ⟨hT, hle, hadv, hpart⟩ := hI
  have hcur : (runLoop invoke ds (initState N)).current_page_index = N :=
    le_antisymm hle hdone
  refine ⟨hcur, by rw [hadv, hcur], by rw [hpart, hcur], ?_⟩
  intro l hl
  have hsub : List.Sublist l (List.range N) := by
    rw [← hcur, ← hpart]
    have h2 : List.Sublist l
        (((runLoop invoke ds (initState N)).saved ++
          [(runLoop invoke ds (initState N)).current_document_pages]).flatten) :=
      List.sublist_flatten_of_mem hl
    simpa [List.flatten_append] using h2
  exact (List.pairwise_lt_range N).sublist hsub

/-- C1 witness: two pages, a continue turn then a save passing the buffer
`[0]`: the run completes with cursor 2 after 2 advances, the saved lists
plus the trailing buffer are `[0]` and `[1]`, concatenating to `range 2`,
each ascending. -/
theorem C1_witness :
    ((1 : Nat) ≤ 2 ∧
      goodRun (fun _ => "ok") [[], [⟨"save_document", "c1", [0]⟩]] (initState 2) = true ∧
      2 ≤ (runLoop (fun _ => "ok") [[], [⟨"save_document", "c1", [0]⟩]]
        (initState 2)).current_page_index) ∧
    ((runLoop (fun _ => "ok") [[], [⟨"save_document", "c1", [0]⟩]]
        (initState 2)).current_page_index = 2 ∧
      (runLoop (fun _ => "ok") [[], [⟨"save_document", "c1", [0]⟩]]
        (initState 2)).advances = 2 ∧
      (runLoop (fun _ => "ok") [[], [⟨"save_document", "c1", [0]⟩]]
        (initState 2)).saved.flatten ++
          (runLoop (fun _ => "ok") [[], [⟨"save_document", "c1", [0]⟩]]
            (initState 2)).current_document_pages = List.range 2 ∧
      ∀ l ∈ (runLoop (fun _ => "ok") [[], [⟨"save_document", "c1", [0]⟩]]
          (initState 2)).saved ++
          [(runLoop (fun _ => "ok") [[], [⟨"save_document", "c1", [0]⟩]]
            (initState 2)).current_document_pages],
        l.Pairwise (· < ·)) :=
  ⟨⟨by decide, by decide, by decide⟩,
    C1_run_partition (fun _ => "ok") [[], [⟨"save_document", "c1", [0]⟩]] 2
      (by decide) (by decide) (by decide)⟩
